import Mathlib

/-!
Verification of the Grafana Webex notification channels.

This file gives a shallow embedding of the four source files of the
repository: the two ngalert channel generations in
`pkg/services/ngalert/notifier/channels/webex.go` (an incoming-webhook
style channel and an authenticated room-API channel) and the two legacy
single-rule notifiers in `pkg/services/alerting/notifiers`.  Pure Go
functions become Lean functions; the collaborators stored on the Go
structs (template, image store, webhook sender) are supplied to `Notify`
as explicit function arguments; the JSON object bodies handed to the
webhook sender are modelled as their key/value pairs in the sorted order
Go's `json.Marshal` of a string map emits; `Notify` results are
instrumented with the list of transport sends performed.
-/

namespace Webex

/-- Raw notification settings: an association list from setting keys to
string values, modelling the simplejson settings blob after string
coercion.  A key absent from the list models both a missing key and a
non-string value (both of which `MustString()` coerces to the default). -/
abbrev Settings := List (String × String)

/-- simplejson `Get(key).MustString(default)`: the value at the key, or
the supplied default when the key is missing. -/
def mustStringD (s : Settings) (k d : String) : String := (s.lookup k).getD d

/-- simplejson `Get(key).MustString()` with the zero-value default. -/
def mustString (s : Settings) (k : String) : String := mustStringD s k ""

/-- Status of a single alert of a batch: resolved, or still firing. -/
structure Alert where
  resolved : Bool
deriving DecidableEq

/-- Aggregate status of an alert batch. -/
inductive AlertStatus
  | firing
  | resolved
deriving DecidableEq

/-- prometheus/alertmanager `types.Alerts(as...).Status()`: firing when
any alert of the batch is not resolved, resolved otherwise. -/
def alertsStatus (as : List Alert) : AlertStatus :=
  if as.any (fun a => !a.resolved) then AlertStatus.firing else AlertStatus.resolved

/-- The injected templating collaborator: the configured external Grafana
base URL together with the expansion function `TmplText` yields for an
alert batch. -/
structure Template where
  externalURL : String
  expand : List Alert → String → String

/-- One step of Go `path.Clean` over the slash-separated elements: empty
and "." elements are dropped, ".." pops a non-".." stack entry (or is
kept when the path is not rooted, or dropped at the root), any other
element is pushed.  The stack is kept in reverse order. -/
def cleanElems (rooted : Bool) : List String → List String → List String
  | stack, [] => stack
  | stack, e :: es =>
    if e = "" || e = "." then cleanElems rooted stack es
    else if e = ".." then
      match stack with
      | [] => if rooted then cleanElems rooted [] es else cleanElems rooted [".."] es
      | top :: rest =>
        if top = ".." then cleanElems rooted (e :: top :: rest) es
        else cleanElems rooted rest es
    else cleanElems rooted (e :: stack) es

/-- Splits a character list at every slash (an executable stand-in for
splitting the path on "/"). -/
def splitSlash : List Char → List (List Char)
  | [] => [[]]
  | c :: cs =>
    let r := splitSlash cs
    if c = '/' then [] :: r
    else
      match r with
      | [] => [[c]]
      | e :: es => (c :: e) :: es

/-- Joins path elements back with slashes. -/
def joinSlash : List String → String
  | [] => ""
  | [e] => e
  | e :: es => e ++ "/" ++ joinSlash es

/-- Go `path.Clean`: purely lexical cleaning of a slash-separated path. -/
def goPathClean (p : String) : String :=
  if p = "" then "."
  else
    let rooted :=
      match p.data with
      | '/' :: _ => true
      | _ => false
    let elems := (splitSlash p.data).map (fun l => String.mk l)
    let out := joinSlash (cleanElems rooted [] elems).reverse
    if rooted then "/" ++ out
    else if out = "" then "." else out

/-- Go `path.Join` on two elements: empty elements are dropped, the rest
are joined with a slash and the result is cleaned. -/
def goPathJoin (a b : String) : String :=
  if a = "" && b = "" then ""
  else if a = "" then goPathClean b
  else if b = "" then goPathClean a
  else goPathClean (a ++ "/" ++ b)

/-- The needle list is a prefix of the hay list. -/
def listHasPre : List Char → List Char → Bool
  | [], _ => true
  | _ :: _, [] => false
  | a :: as, b :: bs => a == b && listHasPre as bs

/-- The needle list occurs contiguously somewhere in the hay list. -/
def listHasSub (needle : List Char) : List Char → Bool
  | [] => listHasPre needle []
  | b :: bs => listHasPre needle (b :: bs) || listHasSub needle bs

/-- The needle string occurs as a contiguous substring of the hay string. -/
def containsSub (hay needle : String) : Bool := listHasSub needle.data hay.data

theorem strData_append (a b : String) : (a ++ b).data = a.data ++ b.data := by
  cases a; cases b; rfl

theorem listHasPre_self_append (n ext : List Char) : listHasPre n (n ++ ext) = true := by
  induction n with
  | nil => rfl
  | cons a as ih => simp [listHasPre, ih]

theorem listHasSub_of_pre {n h : List Char} (hp : listHasPre n h = true) :
    listHasSub n h = true := by
  cases h with
  | nil => simpa [listHasSub] using hp
  | cons b bs => simp [listHasSub, hp]

theorem listHasSub_append_left (a : List Char) {n rest : List Char}
    (hs : listHasSub n rest = true) : listHasSub n (a ++ rest) = true := by
  induction a with
  | nil => simpa using hs
  | cons x xs ih => simp [listHasSub, ih]

theorem listHasPre_extend {n h : List Char} (ext : List Char)
    (hp : listHasPre n h = true) : listHasPre n (h ++ ext) = true := by
  induction n generalizing h with
  | nil => rfl
  | cons a as ih =>
    cases h with
    | nil => exact absurd hp (by simp [listHasPre])
    | cons b bs =>
      simp only [listHasPre, Bool.and_eq_true] at hp
      simp [listHasPre, hp.1, ih hp.2]

theorem listHasSub_extend_right {n h : List Char} (ext : List Char)
    (hs : listHasSub n h = true) : listHasSub n (h ++ ext) = true := by
  induction h with
  | nil =>
    simp only [listHasSub] at hs
    exact listHasSub_of_pre (listHasPre_extend ext hs)
  | cons b bs ih =>
    simp only [listHasSub, Bool.or_eq_true] at hs
    rcases hs with hp | hsub
    · exact listHasSub_of_pre (listHasPre_extend ext hp)
    · simp [listHasSub, ih hsub]

theorem containsSub_mid (p n s : String) : containsSub (p ++ n ++ s) n = true := by
  unfold containsSub
  rw [strData_append, strData_append, List.append_assoc]
  exact listHasSub_append_left p.data
    (listHasSub_of_pre (listHasPre_self_append n.data s.data))

theorem containsSub_append_right {h n : String} (e : String)
    (hc : containsSub h n = true) : containsSub (h ++ e) n = true := by
  unfold containsSub at *
  rw [strData_append]
  exact listHasSub_extend_right e.data hc

theorem strData_eq_nil {a : String} (h : a.data = []) : a = "" := by
  cases a with
  | mk d => cases h; rfl

theorem str_ne_empty_left {a : String} (b : String) (ha : a ≠ "") : a ++ b ≠ "" := by
  intro hcontra
  apply ha
  apply strData_eq_nil
  have hd : a.data ++ b.data = [] := by rw [← strData_append, hcontra]
  exact (List.append_eq_nil.mp hd).1

theorem str_ne_empty_right (a : String) {b : String} (hb : b ≠ "") : a ++ b ≠ "" := by
  intro hcontra
  apply hb
  apply strData_eq_nil
  have hd : a.data ++ b.data = [] := by rw [← strData_append, hcontra]
  exact (List.append_eq_nil.mp hd).2

theorem strData_eq_of_data {a b : String} (h : a.data = b.data) : a = b := by
  cases a; cases b; cases h; rfl

theorem str_append_assoc (a b c : String) : a ++ b ++ c = a ++ (b ++ c) := by
  apply strData_eq_of_data
  rw [strData_append, strData_append, strData_append, strData_append, List.append_assoc]

/-- Appends a "*Image:* url" line for every stored image with a non-empty
URL, as the withStoredImages callback of the ngalert Notify methods does. -/
def appendImageLines (msg : String) (urls : List String) : String :=
  urls.foldl (fun m u => if u ≠ "" then m ++ ("*Image:* " ++ u ++ "\n") else m) msg

theorem appendImageLines_eq (urls : List String) :
    ∀ m : String, ∃ s : String, appendImageLines m urls = m ++ s := by
  induction urls with
  | nil => intro m; exact ⟨"", by simp [appendImageLines]⟩
  | cons u us ih =>
    intro m
    by_cases hu : u ≠ ""
    · obtain ⟨s, hs⟩ := ih (m ++ ("*Image:* " ++ u ++ "\n"))
      refine ⟨"*Image:* " ++ u ++ "\n" ++ s, ?_⟩
      rw [← str_append_assoc, ← hs]
      simp [appendImageLines, hu]
    · obtain ⟨s, hs⟩ := ih m
      have hu' : u = "" := not_not.mp hu
      refine ⟨s, ?_⟩
      rw [← hs]
      simp [appendImageLines, hu']

theorem containsSub_appendImageLines (urls : List String) {m n : String}
    (hc : containsSub m n = true) :
    containsSub (appendImageLines m urls) n = true := by
  obtain ⟨s, hs⟩ := appendImageLines_eq urls m
  rw [hs]
  exact containsSub_append_right s hc

theorem appendImageLines_ne_empty (urls : List String) {m : String} (hm : m ≠ "") :
    appendImageLines m urls ≠ "" := by
  obtain ⟨s, hs⟩ := appendImageLines_eq urls m
  rw [hs]
  exact str_ne_empty_left s hm

/-- ngalert NotificationChannelConfig: identity, the suppress-resolve flag
DisableResolveMessage, and the raw and secure settings. -/
structure NotificationChannelConfig where
  uid : String
  name : String
  typ : String
  disableResolveMessage : Bool
  settings : Settings
  secureSettings : Settings
deriving DecidableEq

/-- GetDecryptedValueFn: resolves a secure setting by key against the
secure-settings store with a plaintext fallback (the context argument of
the Go function carries no data and is dropped). -/
abbrev GetDecryptedValueFn := Settings → String → String → String

/-- Modelled from the spec: the shared channels Base struct (built by
NewBase, whose code is outside src/) keeps the AlertNotification identity
fields, among them the suppress-resolve flag DisableResolveMessage. -/
structure Base where
  uid : String
  name : String
  typ : String
  disableResolveMessage : Bool
  settings : Settings
deriving DecidableEq

/-- Modelled from the spec: Base GetDisableResolveMessage (outside src/)
returns the stored suppress-resolve flag. -/
def Base.GetDisableResolveMessage (b : Base) : Bool := b.disableResolveMessage

/-- models.SendWebhookSync: the one outbound request handed to the
webhook-sender collaborator.  The JSON object body is modelled as its
key/value pairs in the sorted key order Go's json.Marshal of a string map
emits. -/
structure SendWebhookSync where
  url : String
  body : List (String × String)
  httpMethod : String
  contentType : String
  httpHeader : List (String × String)
deriving DecidableEq

/-- The injected synchronous transport: some error message on failure,
none on success. -/
abbrev WebhookSender := SendWebhookSync → Option String

/-- Outcome of one ngalert Notify call, together with the list of
transport sends the call performed. -/
structure NotifyResult where
  delivered : Bool
  err : Option String
  sent : List SendWebhookSync
deriving DecidableEq

/-- Modelled from the spec: channels DefaultMessageTitleEmbed (defined
outside src/), the shared default title template string; its value only
flows through the injected template expander. -/
def DefaultMessageTitleEmbed : String := "\x7b\x7b template \"default.title\" . \x7d\x7d"

/-- The default message template literal, appearing both as the
NewWebexConfig default of the message setting (webhook generation) and
inline in the room-API Notify. -/
def defaultMessageEmbed : String := "\x7b\x7b template \"default.message\" . \x7d\x7d"

/-- Emoji selection shared by both ngalert Notify implementations: the
warning sign by default, replaced by the check mark when the batch status
is resolved. -/
def stateEmojiFor (as : List Alert) : String :=
  if alertsStatus as = AlertStatus.resolved then "\u2705 " else "\u26A0\uFE0F "

/-- The image-store collaborator as Notify consumes it: the stored image
URLs that withStoredImages yields for the alert batch. -/
abbrev ImageStore := List Alert → List String

namespace NgWebhook

/-- WebexConfig of the incoming-webhook ngalert generation. -/
structure WebexConfig where
  channel : NotificationChannelConfig
  webhookURL : String
  content : String
deriving DecidableEq

/-- NewWebexConfig (webhook generation): requires the webhook_url setting
and defaults the message setting to the default.message template. -/
def NewWebexConfig (config : NotificationChannelConfig)
    (_decryptFunc : GetDecryptedValueFn) : Except String WebexConfig :=
  let webhookUrl := mustString config.settings "webhook_url"
  if webhookUrl = "" then Except.error "could not find Webex Webhook URL in settings"
  else Except.ok
    { channel := config
      webhookURL := webhookUrl
      content := mustStringD config.settings "message" defaultMessageEmbed }

/-- The data part of the webhook-generation WebexNotifier; the image
store, webhook sender and template collaborators the Go struct also
stores are supplied to Notify as explicit arguments. -/
structure WebexNotifier where
  base : Base
  webhookURL : String
  content : String
deriving DecidableEq

/-- NewWebexNotifier of the webhook generation: wraps the config fields
into a Base and copies the URL and content. -/
def NewWebexNotifier (config : WebexConfig) : WebexNotifier :=
  { base :=
      { uid := config.channel.uid
        name := config.channel.name
        typ := config.channel.typ
        disableResolveMessage := config.channel.disableResolveMessage
        settings := config.channel.settings }
    webhookURL := config.webhookURL
    content := config.content }

/-- The message Notify builds: the fmt.Sprintf of emoji, title, rendered
content and deep link, followed by the stored-image lines. -/
def messageOf (tn : WebexNotifier) (t : Template) (as : List Alert)
    (urls : List String) : String :=
  appendImageLines
    (stateEmojiFor as ++ t.expand as DefaultMessageTitleEmbed ++ "\n\n*Message:*\n" ++
      t.expand as tn.content ++ "\n*URL:* " ++
      goPathJoin t.externalURL "/alerting/list" ++ "\n")
    urls

/-- The SendWebhookSync command Notify hands to the webhook sender. -/
def mkCmd (tn : WebexNotifier) (t : Template) (as : List Alert)
    (urls : List String) : SendWebhookSync :=
  { url := tn.webhookURL
    body := [("markdown", messageOf tn t as urls)]
    httpMethod := "POST"
    contentType := "application/json; charset=utf-8"
    httpHeader := [] }

/-- Notify of the webhook generation: builds the command and performs one
synchronous send through the injected sender. -/
def Notify (tn : WebexNotifier) (t : Template) (store : ImageStore)
    (ns : WebhookSender) (as : List Alert) : NotifyResult :=
  let cmd := mkCmd tn t as (store as)
  match ns cmd with
  | some e => { delivered := false, err := some e, sent := [cmd] }
  | none => { delivered := true, err := none, sent := [cmd] }

/-- SendResolved negates the Base suppress-resolve flag. -/
def SendResolved (tn : WebexNotifier) : Bool := !tn.base.GetDisableResolveMessage

end NgWebhook

namespace NgRoom

/-- WebexConfig of the authenticated room-API ngalert generation. -/
structure WebexConfig where
  channel : NotificationChannelConfig
  url : String
  roomID : String
  apiSecret : String
deriving DecidableEq

/-- NewWebexConfig (room-API generation): requires the url and room_id
settings and a non-empty resolved api_secret (decrypted with the raw
setting as plaintext fallback). -/
def NewWebexConfig (config : NotificationChannelConfig)
    (decryptFunc : GetDecryptedValueFn) : Except String WebexConfig :=
  let webexUrl := mustString config.settings "url"
  if webexUrl = "" then Except.error "could not find Webex URL in settings"
  else
    let roomID := mustString config.settings "room_id"
    if roomID = "" then Except.error "could not find Webex Room ID in settings"
    else
      let apiSecret := decryptFunc config.secureSettings "api_secret"
        (mustString config.settings "api_secret")
      if apiSecret = "" then Except.error "could not find Webex API secret in settings"
      else Except.ok
        { channel := config, url := webexUrl, roomID := roomID, apiSecret := apiSecret }

/-- The data part of the room-API WebexNotifier; the collaborators the Go
struct also stores are supplied to Notify as explicit arguments. -/
structure WebexNotifier where
  base : Base
  url : String
  roomID : String
  apiSecret : String
deriving DecidableEq

/-- NewWebexNotifier of the room-API generation. -/
def NewWebexNotifier (config : WebexConfig) : WebexNotifier :=
  { base :=
      { uid := config.channel.uid
        name := config.channel.name
        typ := config.channel.typ
        disableResolveMessage := config.channel.disableResolveMessage
        settings := config.channel.settings }
    url := config.url
    roomID := config.roomID
    apiSecret := config.apiSecret }

/-- The message Notify builds: as in the webhook generation, but the
rendered content is the default.message template literal; the receiver is
unused by this message (it reads no notifier field). -/
def messageOf (_tn : WebexNotifier) (t : Template) (as : List Alert)
    (urls : List String) : String :=
  appendImageLines
    (stateEmojiFor as ++ t.expand as DefaultMessageTitleEmbed ++ "\n\n*Message:*\n" ++
      t.expand as defaultMessageEmbed ++ "\n*URL:* " ++
      goPathJoin t.externalURL "/alerting/list" ++ "\n")
    urls

/-- The SendWebhookSync command Notify hands to the webhook sender: the
roomId/markdown JSON body and the bearer Authorization header. -/
def mkCmd (tn : WebexNotifier) (t : Template) (as : List Alert)
    (urls : List String) : SendWebhookSync :=
  { url := tn.url
    body := [("markdown", messageOf tn t as urls), ("roomId", tn.roomID)]
    httpMethod := "POST"
    contentType := "application/json; charset=utf-8"
    httpHeader := [("Authorization", "Bearer " ++ tn.apiSecret)] }

/-- Notify of the room-API generation. -/
def Notify (tn : WebexNotifier) (t : Template) (store : ImageStore)
    (ns : WebhookSender) (as : List Alert) : NotifyResult :=
  let cmd := mkCmd tn t as (store as)
  match ns cmd with
  | some e => { delivered := false, err := some e, sent := [cmd] }
  | none => { delivered := true, err := none, sent := [cmd] }

/-- SendResolved negates the Base suppress-resolve flag. -/
def SendResolved (tn : WebexNotifier) : Bool := !tn.base.GetDisableResolveMessage

end NgRoom

/-- models.AlertNotification as the legacy constructors consume it. -/
structure AlertNotification where
  uid : String
  name : String
  typ : String
  disableResolveMessage : Bool
  settings : Settings
deriving DecidableEq

/-- Modelled from the spec: the legacy NotifierBase (built by
NewNotifierBase, whose code is outside src/) keeps the notification's
identity and suppress-resolve flag. -/
structure NotifierBase where
  name : String
  typ : String
  disableResolveMessage : Bool
deriving DecidableEq

/-- Modelled from the spec: NewNotifierBase (outside src/) copies the
identity fields of the AlertNotification model. -/
def NewNotifierBase (model : AlertNotification) : NotifierBase :=
  { name := model.name
    typ := model.typ
    disableResolveMessage := model.disableResolveMessage }

/-- Grafana legacy rule states (models.AlertState*). -/
inductive AlertState
  | ok
  | paused
  | alerting
  | noData
  | pending
  | unknown
deriving DecidableEq

/-- The rule evaluation context as legacy Notify consumes it: the rule
fields and the already-rendered notification title
(evalContext.GetNotificationTitle()). -/
structure EvalContext where
  ruleID : Nat
  ruleName : String
  ruleMessage : String
  state : AlertState
  title : String
deriving DecidableEq

/-- The legacy state emoji switch, identical in both legacy notifiers:
OK, no-data and alerting have glyphs; every other state falls through the
default case to the empty string. -/
def legacyStateEmoji : AlertState → String
  | AlertState.ok => "\u2705 "
  | AlertState.noData => "\u2753\uFE0F "
  | AlertState.alerting => "\u26A0\uFE0F "
  | _ => ""

/-- The legacy message build, the identical fmt.Sprintf of both legacy
notifiers. -/
def legacyMessage (ec : EvalContext) : String :=
  legacyStateEmoji ec.state ++ ec.title ++ "\n\n*State:* " ++ ec.ruleName ++
    "\n*Message:* " ++ ec.ruleMessage ++ "\n"

/-- Outcome of one legacy Notify call (these return only an error),
together with the list of transport sends the call performed. -/
structure LegacyResult where
  err : Option String
  sent : List SendWebhookSync
deriving DecidableEq

namespace LegacyWebhook

/-- The data part of the legacy incoming-webhook WebexNotifier. -/
structure WebexNotifier where
  base : NotifierBase
  webhookURL : String
  content : String
deriving DecidableEq

/-- NewWebexNotifier of the legacy webhook variant: webhook_url is
required; content is read with the zero-value (empty string) default. -/
def NewWebexNotifier (model : AlertNotification) : Except String WebexNotifier :=
  let webhookURL := mustString model.settings "webhook_url"
  if webhookURL = "" then
    Except.error "Could not find webhook_url property in settings"
  else Except.ok
    { base := NewNotifierBase model
      webhookURL := webhookURL
      content := mustString model.settings "content" }

/-- The SendWebhookSync command legacy webhook Notify sends: the markdown
key is set only when the configured content field is non-empty. -/
def mkCmd (wn : WebexNotifier) (ec : EvalContext) : SendWebhookSync :=
  { url := wn.webhookURL
    body := if wn.content ≠ "" then [("markdown", legacyMessage ec)] else []
    httpMethod := "POST"
    contentType := "application/json; charset=utf-8"
    httpHeader := [] }

/-- Notify of the legacy webhook variant. -/
def Notify (wn : WebexNotifier) (ec : EvalContext) (ns : WebhookSender) : LegacyResult :=
  let cmd := mkCmd wn ec
  match ns cmd with
  | some e => { err := some e, sent := [cmd] }
  | none => { err := none, sent := [cmd] }

end LegacyWebhook

namespace LegacyRoom

/-- The data part of the legacy room-API WebexNotifier. -/
structure WebexNotifier where
  base : NotifierBase
  url : String
  apiToken : String
  roomId : String
deriving DecidableEq

/-- NewWebexNotifier of the legacy room-API variant: url, webexToken and
roomId are all required. -/
def NewWebexNotifier (model : AlertNotification) : Except String WebexNotifier :=
  let url := mustString model.settings "url"
  if url = "" then Except.error "Could not find url property in settings"
  else
    let webexApiToken := mustString model.settings "webexToken"
    if webexApiToken = "" then
      Except.error "Could not find webexToken property in settings"
    else
      let webexRoomId := mustString model.settings "roomId"
      if webexRoomId = "" then
        Except.error "Could not find roomId property in settings"
      else Except.ok
        { base := NewNotifierBase model
          url := url
          apiToken := webexApiToken
          roomId := webexRoomId }

/-- The SendWebhookSync command legacy room-API Notify sends: the
roomId/markdown JSON body and the bearer Authorization header. -/
def mkCmd (wn : WebexNotifier) (ec : EvalContext) : SendWebhookSync :=
  { url := wn.url
    body := [("markdown", legacyMessage ec), ("roomId", wn.roomId)]
    httpMethod := "POST"
    contentType := "application/json; charset=utf-8"
    httpHeader := [("Authorization", "Bearer " ++ wn.apiToken)] }

/-- Notify of the legacy room-API variant. -/
def Notify (wn : WebexNotifier) (ec : EvalContext) (ns : WebhookSender) : LegacyResult :=
  let cmd := mkCmd wn ec
  match ns cmd with
  | some e => { err := some e, sent := [cmd] }
  | none => { err := none, sent := [cmd] }

end LegacyRoom

/-- A decrypt function that always falls back to the plaintext setting. -/
def decFallback : GetDecryptedValueFn := fun _ _ fb => fb

/-- A channel configuration whose settings blob is the empty object. -/
def emptyChannelConfig : NotificationChannelConfig :=
  { uid := ""
    name := "ops"
    typ := "webex"
    disableResolveMessage := false
    settings := []
    secureSettings := [] }

/-- Settings holding only a url. -/
def urlOnlyConfig : NotificationChannelConfig :=
  { emptyChannelConfig with settings := [("url", "https://example.test")] }

/-- Settings holding a url and a room_id but no api_secret. -/
def urlRoomConfig : NotificationChannelConfig :=
  { emptyChannelConfig with
      settings := [("url", "https://example.test"), ("room_id", "R1")] }

/-- The end-to-end room-API scenario settings of the spec: url, room_id
and api_secret all present. -/
def roomScenarioConfig : NotificationChannelConfig :=
  { emptyChannelConfig with
      settings := [("url", "https://example.test"), ("room_id", "R1"), ("api_secret", "tok")] }

/-- A legacy notification model whose settings blob is the empty object. -/
def emptyModel : AlertNotification :=
  { uid := ""
    name := "ops"
    typ := "webex"
    disableResolveMessage := false
    settings := [] }

/-- Legacy settings holding only a url. -/
def modelUrl : AlertNotification :=
  { emptyModel with settings := [("url", "u")] }

/-- Legacy settings holding a url and a webexToken but no roomId. -/
def modelUrlTok : AlertNotification :=
  { emptyModel with settings := [("url", "u"), ("webexToken", "t")] }

/-- C1: for every raw configuration in which a required field (the
webhook URL for the webhook-style channel; the URL, room ID or API secret
for the room-API channels) is missing or coerces to the empty string, the
constructor returns the validation error naming that field (checking the
fields in consumption order), and no config value is produced — the
result is the error branch, never an ok value. -/
theorem c1_missing_required_field (c : NotificationChannelConfig)
    (dec : GetDecryptedValueFn) (m : AlertNotification) :
    (mustString c.settings "webhook_url" = "" →
      NgWebhook.NewWebexConfig c dec =
        Except.error "could not find Webex Webhook URL in settings") ∧
    (mustString c.settings "url" = "" →
      NgRoom.NewWebexConfig c dec =
        Except.error "could not find Webex URL in settings") ∧
    (mustString c.settings "url" ≠ "" → mustString c.settings "room_id" = "" →
      NgRoom.NewWebexConfig c dec =
        Except.error "could not find Webex Room ID in settings") ∧
    (mustString c.settings "url" ≠ "" → mustString c.settings "room_id" ≠ "" →
      dec c.secureSettings "api_secret" (mustString c.settings "api_secret") = "" →
      NgRoom.NewWebexConfig c dec =
        Except.error "could not find Webex API secret in settings") ∧
    (mustString m.settings "url" = "" →
      LegacyRoom.NewWebexNotifier m =
        Except.error "Could not find url property in settings") ∧
    (mustString m.settings "url" ≠ "" → mustString m.settings "webexToken" = "" →
      LegacyRoom.NewWebexNotifier m =
        Except.error "Could not find webexToken property in settings") ∧
    (mustString m.settings "url" ≠ "" → mustString m.settings "webexToken" ≠ "" →
      mustString m.settings "roomId" = "" →
      LegacyRoom.NewWebexNotifier m =
        Except.error "Could not find roomId property in settings") ∧
    (mustString m.settings "webhook_url" = "" →
      LegacyWebhook.NewWebexNotifier m =
        Except.error "Could not find webhook_url property in settings") := by
  refine ⟨?_, ?_, ?_, ?_, ?_, ?_, ?_, ?_⟩
  · intro h; simp [NgWebhook.NewWebexConfig, h]
  · intro h; simp [NgRoom.NewWebexConfig, h]
  · intro h1 h2; simp [NgRoom.NewWebexConfig, h1, h2]
  · intro h1 h2 h3; simp [NgRoom.NewWebexConfig, h1, h2, h3]
  · intro h; simp [LegacyRoom.NewWebexNotifier, h]
  · intro h1 h2; simp [LegacyRoom.NewWebexNotifier, h1, h2]
  · intro h1 h2 h3; simp [LegacyRoom.NewWebexNotifier, h1, h2, h3]
  · intro h; simp [LegacyWebhook.NewWebexNotifier, h]

/-- Witness for C1 at concrete configurations: each required field in
turn missing, with all earlier fields present. -/
theorem c1_missing_required_field_witness :
    NgWebhook.NewWebexConfig emptyChannelConfig decFallback =
      Except.error "could not find Webex Webhook URL in settings" ∧
    NgRoom.NewWebexConfig emptyChannelConfig decFallback =
      Except.error "could not find Webex URL in settings" ∧
    NgRoom.NewWebexConfig urlOnlyConfig decFallback =
      Except.error "could not find Webex Room ID in settings" ∧
    NgRoom.NewWebexConfig urlRoomConfig decFallback =
      Except.error "could not find Webex API secret in settings" ∧
    LegacyRoom.NewWebexNotifier emptyModel =
      Except.error "Could not find url property in settings" ∧
    LegacyRoom.NewWebexNotifier modelUrl =
      Except.error "Could not find webexToken property in settings" ∧
    LegacyRoom.NewWebexNotifier modelUrlTok =
      Except.error "Could not find roomId property in settings" ∧
    LegacyWebhook.NewWebexNotifier emptyModel =
      Except.error "Could not find webhook_url property in settings" := by
  refine ⟨?_, ?_, ?_, ?_, ?_, ?_, ?_, ?_⟩
  · exact (c1_missing_required_field emptyChannelConfig decFallback emptyModel).1
      (by decide)
  · exact (c1_missing_required_field emptyChannelConfig decFallback emptyModel).2.1
      (by decide)
  · exact (c1_missing_required_field urlOnlyConfig decFallback emptyModel).2.2.1
      (by decide) (by decide)
  · exact (c1_missing_required_field urlRoomConfig decFallback emptyModel).2.2.2.1
      (by decide) (by decide) (by decide)
  · exact (c1_missing_required_field emptyChannelConfig decFallback emptyModel).2.2.2.2.1
      (by decide)
  · exact (c1_missing_required_field emptyChannelConfig decFallback modelUrl).2.2.2.2.2.1
      (by decide) (by decide)
  · exact
      (c1_missing_required_field emptyChannelConfig decFallback modelUrlTok).2.2.2.2.2.2.1
      (by decide) (by decide) (by decide)
  · exact
      (c1_missing_required_field emptyChannelConfig decFallback emptyModel).2.2.2.2.2.2.2
      (by decide)

/-- C2: for every constructed notifier of either ngalert generation,
SendResolved is the negation of the configuration's DisableResolveMessage
flag; in particular it returns false exactly when the flag is true. -/
theorem c2_send_resolved_negates_flag (cfgW : NgWebhook.WebexConfig)
    (cfgR : NgRoom.WebexConfig) :
    NgWebhook.SendResolved (NgWebhook.NewWebexNotifier cfgW) =
      !cfgW.channel.disableResolveMessage ∧
    NgRoom.SendResolved (NgRoom.NewWebexNotifier cfgR) =
      !cfgR.channel.disableResolveMessage ∧
    (NgWebhook.SendResolved (NgWebhook.NewWebexNotifier cfgW) = false ↔
      cfgW.channel.disableResolveMessage = true) ∧
    (NgRoom.SendResolved (NgRoom.NewWebexNotifier cfgR) = false ↔
      cfgR.channel.disableResolveMessage = true) := by
  refine ⟨rfl, rfl, ?_, ?_⟩ <;>
    simp [NgWebhook.SendResolved, NgRoom.SendResolved, NgWebhook.NewWebexNotifier,
      NgRoom.NewWebexNotifier, Base.GetDisableResolveMessage]

/-- Tail-shift helper: appending image lines to a message with a known
first segment keeps that segment as a prefix. -/
theorem appendImageLines_keeps_head (e x : String) (urls : List String) :
    ∃ r, appendImageLines (e ++ x) urls = e ++ r := by
  obtain ⟨s, hs⟩ := appendImageLines_eq urls (e ++ x)
  exact ⟨x ++ s, by rw [hs, str_append_assoc]⟩

/-- A batch with a single resolved alert. -/
def asResolved : List Alert := [{ resolved := true }]

/-- A batch with one resolved and one firing alert. -/
def asFiring : List Alert := [{ resolved := true }, { resolved := false }]

/-- C3: when every alert of the batch is resolved the chosen state symbol
is the check-mark glyph, and when at least one alert is firing it is the
warning-sign glyph; in both ngalert generations the message is exactly
that symbol followed by the rest of the text. -/
theorem c3_state_symbol (as : List Alert) :
    ((∀ a ∈ as, a.resolved = true) → stateEmojiFor as = "✅ ") ∧
    ((∃ a ∈ as, a.resolved = false) → stateEmojiFor as = "⚠️ ") ∧
    (∀ (tnW : NgWebhook.WebexNotifier) (tnR : NgRoom.WebexNotifier) (t : Template)
      (urls : List String),
      (∃ r, NgWebhook.messageOf tnW t as urls = stateEmojiFor as ++ r) ∧
      (∃ r, NgRoom.messageOf tnR t as urls = stateEmojiFor as ++ r)) := by
  refine ⟨?_, ?_, ?_⟩
  · intro h
    have hany : as.any (fun a => !a.resolved) = false := by
      simp only [List.any_eq_false]
      intro a ha
      simp [h a ha]
    simp [stateEmojiFor, alertsStatus, hany]
  · intro h
    obtain ⟨a, ha, hres⟩ := h
    have hany : as.any (fun a => !a.resolved) = true :=
      List.any_eq_true.mpr ⟨a, ha, by simp [hres]⟩
    simp [stateEmojiFor, alertsStatus, hany]
  · intro tnW tnR t urls
    constructor
    · simp only [NgWebhook.messageOf, str_append_assoc]
      exact appendImageLines_keeps_head _ _ urls
    · simp only [NgRoom.messageOf, str_append_assoc]
      exact appendImageLines_keeps_head _ _ urls

/-- Witness for C3 at an all-resolved and an one-firing batch. -/
theorem c3_state_symbol_witness :
    stateEmojiFor asResolved = "✅ " ∧ stateEmojiFor asFiring = "⚠️ " := by
  constructor
  · exact (c3_state_symbol asResolved).1 (by decide)
  · exact (c3_state_symbol asFiring).2.1 ⟨{ resolved := false }, by decide, rfl⟩

/-- Inversion of the room-API NewWebexConfig: a produced config carries
the room_id setting and the resolved (decrypted-with-fallback) secret. -/
theorem NgRoom.config_fields {c : NotificationChannelConfig}
    {dec : GetDecryptedValueFn} {cfg : NgRoom.WebexConfig}
    (h : NgRoom.NewWebexConfig c dec = Except.ok cfg) :
    cfg.roomID = mustString c.settings "room_id" ∧
    cfg.apiSecret = dec c.secureSettings "api_secret" (mustString c.settings "api_secret") := by
  simp only [NgRoom.NewWebexConfig] at h
  by_cases h1 : mustString c.settings "url" = ""
  · simp [h1] at h
  · by_cases h2 : mustString c.settings "room_id" = ""
    · simp [h1, h2] at h
    · by_cases h3 :
        dec c.secureSettings "api_secret" (mustString c.settings "api_secret") = ""
      · simp [h1, h2, h3] at h
      · simp only [h1, h2, h3, if_false, ite_false, if_neg, Except.ok.injEq] at h
        subst h
        exact ⟨rfl, rfl⟩

/-- The room-API end-to-end configuration the spec's scenario C yields. -/
def roomScenarioCfg : NgRoom.WebexConfig :=
  { channel := roomScenarioConfig
    url := "https://example.test"
    roomID := "R1"
    apiSecret := "tok" }

/-- A concrete template collaborator: identity expansion and a fixed
external base URL. -/
def t0 : Template := { externalURL := "http://grafana.example", expand := fun _ s => s }

/-- C4: for every room-API configuration successfully validated from
settings with url, room_id and api_secret, the built payload body is the
JSON object with exactly the markdown key (the rendered message) and the
roomId key (the configured room ID), and the request carries the header
Authorization "Bearer " followed by the resolved secret. -/
theorem c4_room_payload (c : NotificationChannelConfig) (dec : GetDecryptedValueFn)
    (cfg : NgRoom.WebexConfig) (t : Template) (as : List Alert) (urls : List String)
    (h : NgRoom.NewWebexConfig c dec = Except.ok cfg) :
    (NgRoom.mkCmd (NgRoom.NewWebexNotifier cfg) t as urls).body =
      [("markdown", NgRoom.messageOf (NgRoom.NewWebexNotifier cfg) t as urls),
        ("roomId", cfg.roomID)] ∧
    (NgRoom.mkCmd (NgRoom.NewWebexNotifier cfg) t as urls).httpHeader =
      [("Authorization", "Bearer " ++ cfg.apiSecret)] ∧
    cfg.roomID = mustString c.settings "room_id" ∧
    cfg.apiSecret = dec c.secureSettings "api_secret" (mustString c.settings "api_secret") :=
  ⟨rfl, rfl, (NgRoom.config_fields h).1, (NgRoom.config_fields h).2⟩

/-- Witness for C4 at the spec's scenario C settings. -/
theorem c4_room_payload_witness :
    (NgRoom.mkCmd (NgRoom.NewWebexNotifier roomScenarioCfg) t0 [] []).body =
      [("markdown", NgRoom.messageOf (NgRoom.NewWebexNotifier roomScenarioCfg) t0 [] []),
        ("roomId", "R1")] ∧
    (NgRoom.mkCmd (NgRoom.NewWebexNotifier roomScenarioCfg) t0 [] []).httpHeader =
      [("Authorization", "Bearer tok")] := by
  have h := c4_room_payload roomScenarioConfig decFallback roomScenarioCfg t0 [] [] rfl
  exact ⟨h.1, h.2.1⟩

/-- C5: the produced request body does not depend on the secret — two
runs differing only in the secret build identical bodies — and the
Authorization header is exactly "Bearer " followed by the notifier's
secret, which a successful validation always sets to the output of the
decrypt function (the resolved secret), never to anything else. -/
theorem c5_secret_noninterference (tn : NgRoom.WebexNotifier) (s' : String)
    (t : Template) (as : List Alert) (urls : List String)
    (c : NotificationChannelConfig) (dec : GetDecryptedValueFn)
    (cfg : NgRoom.WebexConfig) :
    (NgRoom.mkCmd { tn with apiSecret := s' } t as urls).body =
      (NgRoom.mkCmd tn t as urls).body ∧
    (NgRoom.mkCmd tn t as urls).httpHeader =
      [("Authorization", "Bearer " ++ tn.apiSecret)] ∧
    (NgRoom.NewWebexConfig c dec = Except.ok cfg →
      cfg.apiSecret = dec c.secureSettings "api_secret" (mustString c.settings "api_secret")) :=
  ⟨rfl, rfl, fun h => (NgRoom.config_fields h).2⟩

/-- Witness for C5: changing the scenario-C secret to another value
leaves the body unchanged, and the resolved secret is the fallback value. -/
theorem c5_secret_noninterference_witness :
    (NgRoom.mkCmd { NgRoom.NewWebexNotifier roomScenarioCfg with apiSecret := "other" }
        t0 [] []).body =
      (NgRoom.mkCmd (NgRoom.NewWebexNotifier roomScenarioCfg) t0 [] []).body ∧
    roomScenarioCfg.apiSecret = "tok" := by
  have h := c5_secret_noninterference (NgRoom.NewWebexNotifier roomScenarioCfg) "other"
    t0 [] [] roomScenarioConfig decFallback roomScenarioCfg
  exact ⟨h.1, h.2.2 rfl⟩

/-- C6: every Notify call performs exactly one synchronous POST through
the injected transport; a transport error yields (false, that error) with
no retry, and transport success yields (true, nil). -/
theorem c6_single_send_outcome (tnW : NgWebhook.WebexNotifier)
    (tnR : NgRoom.WebexNotifier) (t : Template) (store : ImageStore)
    (ns : WebhookSender) (as : List Alert) :
    (NgWebhook.Notify tnW t store ns as).sent = [NgWebhook.mkCmd tnW t as (store as)] ∧
    (NgWebhook.mkCmd tnW t as (store as)).httpMethod = "POST" ∧
    (∀ e, ns (NgWebhook.mkCmd tnW t as (store as)) = some e →
      (NgWebhook.Notify tnW t store ns as).delivered = false ∧
      (NgWebhook.Notify tnW t store ns as).err = some e) ∧
    (ns (NgWebhook.mkCmd tnW t as (store as)) = none →
      (NgWebhook.Notify tnW t store ns as).delivered = true ∧
      (NgWebhook.Notify tnW t store ns as).err = none) ∧
    (NgRoom.Notify tnR t store ns as).sent = [NgRoom.mkCmd tnR t as (store as)] ∧
    (NgRoom.mkCmd tnR t as (store as)).httpMethod = "POST" ∧
    (∀ e, ns (NgRoom.mkCmd tnR t as (store as)) = some e →
      (NgRoom.Notify tnR t store ns as).delivered = false ∧
      (NgRoom.Notify tnR t store ns as).err = some e) ∧
    (ns (NgRoom.mkCmd tnR t as (store as)) = none →
      (NgRoom.Notify tnR t store ns as).delivered = true ∧
      (NgRoom.Notify tnR t store ns as).err = none) := by
  refine ⟨?_, rfl, ?_, ?_, ?_, rfl, ?_, ?_⟩
  · cases hns : ns (NgWebhook.mkCmd tnW t as (store as)) <;>
      simp [NgWebhook.Notify, hns]
  · intro e he
    constructor <;> simp [NgWebhook.Notify, he]
  · intro he
    constructor <;> simp [NgWebhook.Notify, he]
  · cases hns : ns (NgRoom.mkCmd tnR t as (store as)) <;>
      simp [NgRoom.Notify, hns]
  · intro e he
    constructor <;> simp [NgRoom.Notify, he]
  · intro he
    constructor <;> simp [NgRoom.Notify, he]

/-- A transport that always fails with the error "boom". -/
def nsFail : WebhookSender := fun _ => some "boom"

/-- A transport that always succeeds. -/
def nsOk : WebhookSender := fun _ => none

/-- An image store without stored images. -/
def store0 : ImageStore := fun _ => []

/-- A concrete webhook-generation configuration. -/
def webhookScenarioCfg : NgWebhook.WebexConfig :=
  { channel := emptyChannelConfig
    webhookURL := "https://example.test/hook"
    content := defaultMessageEmbed }

/-- The notifier built from the concrete webhook configuration. -/
def tnW0 : NgWebhook.WebexNotifier := NgWebhook.NewWebexNotifier webhookScenarioCfg

/-- The notifier built from the concrete room configuration. -/
def tnR0 : NgRoom.WebexNotifier := NgRoom.NewWebexNotifier roomScenarioCfg

/-- Witness for C6: under a failing and under a succeeding transport. -/
theorem c6_single_send_outcome_witness :
    (NgWebhook.Notify tnW0 t0 store0 nsFail []).delivered = false ∧
    (NgWebhook.Notify tnW0 t0 store0 nsFail []).err = some "boom" ∧
    (NgWebhook.Notify tnW0 t0 store0 nsOk []).delivered = true ∧
    (NgWebhook.Notify tnW0 t0 store0 nsOk []).err = none ∧
    (NgRoom.Notify tnR0 t0 store0 nsFail []).delivered = false ∧
    (NgRoom.Notify tnR0 t0 store0 nsFail []).err = some "boom" ∧
    (NgRoom.Notify tnR0 t0 store0 nsOk []).delivered = true ∧
    (NgRoom.Notify tnR0 t0 store0 nsOk []).err = none := by
  have hf := c6_single_send_outcome tnW0 tnR0 t0 store0 nsFail []
  have ho := c6_single_send_outcome tnW0 tnR0 t0 store0 nsOk []
  exact ⟨(hf.2.2.1 "boom" rfl).1, (hf.2.2.1 "boom" rfl).2,
    (ho.2.2.2.1 rfl).1, (ho.2.2.2.1 rfl).2,
    (hf.2.2.2.2.2.2.1 "boom" rfl).1, (hf.2.2.2.2.2.2.1 "boom" rfl).2,
    (ho.2.2.2.2.2.2.2 rfl).1, (ho.2.2.2.2.2.2.2 rfl).2⟩

/-- Legacy settings holding only the webhook_url (no content). -/
def mWebhookOnly : AlertNotification :=
  { emptyModel with settings := [("webhook_url", "https://example.test/hook")] }

/-- The notifier the legacy webhook constructor builds from settings
holding only the webhook_url: its content field is the empty string. -/
def wnEmptyContent : LegacyWebhook.WebexNotifier :=
  { base := NewNotifierBase mWebhookOnly
    webhookURL := "https://example.test/hook"
    content := "" }

/-- A concrete alerting-state rule evaluation. -/
def ecAlerting : EvalContext :=
  { ruleID := 1
    ruleName := "CPU"
    ruleMessage := "high"
    state := AlertState.alerting
    title := "[Alerting] CPU" }

/-- A concrete OK-state rule evaluation. -/
def ecOk : EvalContext :=
  { ruleID := 2
    ruleName := "Mem"
    ruleMessage := "fine"
    state := AlertState.ok
    title := "[OK] Mem" }

/-- A concrete paused-state rule evaluation. -/
def ecPaused : EvalContext :=
  { ruleID := 3
    ruleName := "Disk"
    ruleMessage := "p"
    state := AlertState.paused
    title := "[Paused] Disk" }

/-- C7 counterexample: the legacy webhook notifier reachable from
settings with webhook_url but no content has an empty content field; its
rendered message is nevertheless non-empty, yet the built body omits the
markdown key — so the body does not contain the markdown key if and only
if the rendered message is non-empty, refuting the claim as stated. -/
theorem c7_counterexample :
    LegacyWebhook.NewWebexNotifier mWebhookOnly = Except.ok wnEmptyContent ∧
    legacyMessage ecAlerting ≠ "" ∧
    ¬(((LegacyWebhook.mkCmd wnEmptyContent ecAlerting).body.lookup "markdown").isSome =
        true ↔ legacyMessage ecAlerting ≠ "") :=
  ⟨rfl, by decide, by decide⟩

/-- C7 amended: in the legacy webhook notifier the body carries the
markdown key if and only if the configured content field is non-empty
(the empty JSON object otherwise), while the rendered message itself is
never empty; the ngalert webhook generation always carries the markdown
key and its message is also never empty; neither shape attaches any
authentication header. -/
theorem c7_markdown_key_gating (wn : LegacyWebhook.WebexNotifier) (ec : EvalContext)
    (tn : NgWebhook.WebexNotifier) (t : Template) (as : List Alert)
    (urls : List String) :
    ((LegacyWebhook.mkCmd wn ec).body =
      if wn.content ≠ "" then [("markdown", legacyMessage ec)] else []) ∧
    (LegacyWebhook.mkCmd wn ec).httpHeader = [] ∧
    legacyMessage ec ≠ "" ∧
    (NgWebhook.mkCmd tn t as urls).body =
      [("markdown", NgWebhook.messageOf tn t as urls)] ∧
    (NgWebhook.mkCmd tn t as urls).httpHeader = [] ∧
    NgWebhook.messageOf tn t as urls ≠ "" := by
  refine ⟨rfl, rfl, ?_, rfl, rfl, ?_⟩
  · unfold legacyMessage
    exact str_ne_empty_right _ (by decide)
  · unfold NgWebhook.messageOf
    exact appendImageLines_ne_empty urls (str_ne_empty_right _ (by decide))

/-- C8 counterexample: the legacy webhook constructor succeeds on
settings without the optional content field but sets content to the empty
string, not to the documented default template — refuting the claim that
every webhook-style configuration falls back to the default template. -/
theorem c8_counterexample :
    LegacyWebhook.NewWebexNotifier mWebhookOnly = Except.ok wnEmptyContent ∧
    wnEmptyContent.content = "" ∧
    wnEmptyContent.content ≠ defaultMessageEmbed :=
  ⟨rfl, rfl, by decide⟩

/-- C8 amended: with the optional message field absent and the webhook
URL present, the ngalert webhook constructor succeeds with the content
field equal to the documented default template; the legacy webhook
constructor also succeeds but defaults its content field to the empty
string. -/
theorem c8_default_template (c : NotificationChannelConfig)
    (dec : GetDecryptedValueFn) (m : AlertNotification) :
    (c.settings.lookup "message" = none → mustString c.settings "webhook_url" ≠ "" →
      NgWebhook.NewWebexConfig c dec = Except.ok
        { channel := c
          webhookURL := mustString c.settings "webhook_url"
          content := defaultMessageEmbed }) ∧
    (m.settings.lookup "content" = none → mustString m.settings "webhook_url" ≠ "" →
      LegacyWebhook.NewWebexNotifier m = Except.ok
        { base := NewNotifierBase m
          webhookURL := mustString m.settings "webhook_url"
          content := "" }) := by
  constructor
  · intro h1 h2
    simp [NgWebhook.NewWebexConfig, h2, mustStringD, h1]
  · intro h1 h2
    simp [LegacyWebhook.NewWebexNotifier, h2]
    simp [mustString, mustStringD, h1]

/-- ngalert settings holding only the webhook_url (no message override). -/
def cWebhookOnly : NotificationChannelConfig :=
  { emptyChannelConfig with settings := [("webhook_url", "https://example.test/hook")] }

/-- Witness for the amended C8 at concrete settings with only the
webhook URL present. -/
theorem c8_default_template_witness :
    NgWebhook.NewWebexConfig cWebhookOnly decFallback = Except.ok
      { channel := cWebhookOnly
        webhookURL := "https://example.test/hook"
        content := defaultMessageEmbed } ∧
    LegacyWebhook.NewWebexNotifier mWebhookOnly = Except.ok
      { base := NewNotifierBase mWebhookOnly
        webhookURL := "https://example.test/hook"
        content := "" } := by
  constructor
  · exact (c8_default_template cWebhookOnly decFallback mWebhookOnly).1 rfl (by decide)
  · exact (c8_default_template cWebhookOnly decFallback mWebhookOnly).2 rfl (by decide)

/-- C9 counterexample: a legacy Notify call builds a concrete message
that contains no deep link at all — in particular not the join of a
configured external base URL with /alerting/list — refuting the claim
that every Notify call appends such a link. -/
theorem c9_counterexample :
    legacyMessage ecOk = "✅ [OK] Mem\n\n*State:* Mem\n*Message:* fine\n" ∧
    goPathJoin "http://grafana.example" "/alerting/list" =
      "http:/grafana.example/alerting/list" ∧
    containsSub (legacyMessage ecOk)
      (goPathJoin "http://grafana.example" "/alerting/list") = false :=
  ⟨by decide, by decide, by decide⟩

/-- C9 amended: in both ngalert generations every Notify message contains
the deep link obtained by path-joining the template's external base URL
with /alerting/list, regardless of alert state; the legacy single-rule
notifiers build their message without any such link. -/
theorem c9_deep_link (tnW : NgWebhook.WebexNotifier) (tnR : NgRoom.WebexNotifier)
    (t : Template) (as : List Alert) (urls : List String) :
    containsSub (NgWebhook.messageOf tnW t as urls)
      (goPathJoin t.externalURL "/alerting/list") = true ∧
    containsSub (NgRoom.messageOf tnR t as urls)
      (goPathJoin t.externalURL "/alerting/list") = true := by
  constructor
  · unfold NgWebhook.messageOf
    exact containsSub_appendImageLines urls (containsSub_mid _ _ _)
  · unfold NgRoom.messageOf
    exact containsSub_appendImageLines urls (containsSub_mid _ _ _)

/-- C10: in the legacy single-rule notifiers the state-symbol mapping is
total, with the empty string as silent default for every state other than
OK, no-data and alerting; for any such state the message is still built
and, when the transport succeeds, Notify returns without error. -/
theorem c10_silent_default_state (st : AlertState) (wn : LegacyWebhook.WebexNotifier)
    (rn : LegacyRoom.WebexNotifier) (ec : EvalContext) (ns : WebhookSender) :
    (legacyStateEmoji AlertState.paused = "" ∧ legacyStateEmoji AlertState.pending = "" ∧
      legacyStateEmoji AlertState.unknown = "") ∧
    (st ≠ AlertState.ok → st ≠ AlertState.noData → st ≠ AlertState.alerting →
      legacyStateEmoji st = "") ∧
    (ns (LegacyWebhook.mkCmd wn ec) = none →
      LegacyWebhook.Notify wn ec ns =
        { err := none, sent := [LegacyWebhook.mkCmd wn ec] }) ∧
    (ns (LegacyRoom.mkCmd rn ec) = none →
      LegacyRoom.Notify rn ec ns =
        { err := none, sent := [LegacyRoom.mkCmd rn ec] }) := by
  refine ⟨⟨rfl, rfl, rfl⟩, ?_, ?_, ?_⟩
  · intro h1 h2 h3
    cases st <;> simp_all [legacyStateEmoji]
  · intro h
    simp [LegacyWebhook.Notify, h]
  · intro h
    simp [LegacyRoom.Notify, h]

/-- A legacy webhook notifier with non-empty content. -/
def wnLegacy : LegacyWebhook.WebexNotifier :=
  { base := NewNotifierBase mWebhookOnly
    webhookURL := "https://example.test/hook"
    content := "c" }

/-- A concrete legacy room-API notifier. -/
def rnLegacy : LegacyRoom.WebexNotifier :=
  { base := NewNotifierBase emptyModel
    url := "u"
    apiToken := "t"
    roomId := "r" }

/-- Witness for C10 at the paused state with a succeeding transport. -/
theorem c10_silent_default_state_witness :
    legacyStateEmoji AlertState.paused = "" ∧
    LegacyWebhook.Notify wnLegacy ecPaused nsOk =
      { err := none, sent := [LegacyWebhook.mkCmd wnLegacy ecPaused] } ∧
    LegacyRoom.Notify rnLegacy ecPaused nsOk =
      { err := none, sent := [LegacyRoom.mkCmd rnLegacy ecPaused] } := by
  have h := c10_silent_default_state AlertState.paused wnLegacy rnLegacy ecPaused nsOk
  exact ⟨h.2.1 (by decide) (by decide) (by decide), h.2.2.1 rfl, h.2.2.2 rfl⟩

end Webex
